import Mathlib

/-
Shallow embedding of flaky-finder (src/src/main.rs).

The program runs a shell command `runs` times on a thread pool of
`nb_threads` workers, collects each child process result (exit status,
stdout, stderr) over a bounded channel, and aggregates them in a single
consumer loop (FlakyFinder::run).  We model the aggregation loop, the
end-of-run reporter (FlakyFinder::show_errors) and the top-level control
flow of `main` as pure functions over the arrival-ordered list of results
sent on the channel.  Everything the program prints is recorded as an
abstract event trace in arrival order.
-/

namespace Flaky

/-- Model of std::process::Output: the recorded exit status collapsed to
`status.success()` as in the source, and raw stdout / stderr byte
sequences (bytes as Nat, each < 256 for real inputs; the bound is
irrelevant to the control flow modelled here). -/
structure Output where
  success : Bool
  stdout : List Nat
  stderr : List Nat
deriving DecidableEq, Repr

/-- Model of the FlakyFinder struct (src/src/main.rs lines 16-32).
The source fields `exit_status : Option<ExitStatus>` (never read) and
`outputs : Vec<Output>` (the accumulator, threaded explicitly through the
loop model below) are not configuration and are not carried here. -/
structure FlakyFinder where
  cmd : String
  nb_threads : Nat
  runs : Nat
  should_continue : Bool
  show_errors_as_summary : Bool
deriving DecidableEq, Repr

/-- Checks that a byte is a UTF-8 continuation byte (0x80..0xBF). -/
def utf8Cont (b : Nat) : Bool :=
  decide (0x80 ≤ b) && decide (b < 0xC0)

/-- Validity of a byte sequence as UTF-8, as checked by
std::str::from_utf8 in the source (lines 98-99): ASCII, and 2-, 3- and
4-byte sequences with the standard lead/continuation ranges, rejecting
overlong encodings, surrogates and code points above U+10FFFF. -/
def isValidUtf8 : List Nat → Bool
  | [] => true
  | b :: rest =>
    if b < 0x80 then isValidUtf8 rest
    else if b < 0xC2 then false
    else if b < 0xE0 then
      match rest with
      | c1 :: rest2 => utf8Cont c1 && isValidUtf8 rest2
      | [] => false
    else if b < 0xF0 then
      match rest with
      | c1 :: c2 :: rest2 =>
        (if b = 0xE0 then decide (0xA0 ≤ c1) && decide (c1 < 0xC0)
         else if b = 0xED then decide (0x80 ≤ c1) && decide (c1 < 0xA0)
         else utf8Cont c1) && utf8Cont c2 && isValidUtf8 rest2
      | _ => false
    else if b < 0xF5 then
      match rest with
      | c1 :: c2 :: c3 :: rest2 =>
        (if b = 0xF0 then decide (0x90 ≤ c1) && decide (c1 < 0xC0)
         else if b = 0xF4 then decide (0x80 ≤ c1) && decide (c1 < 0x90)
         else utf8Cont c1) && utf8Cont c2 && utf8Cont c3 && isValidUtf8 rest2
      | _ => false
    else false

/-- Observable output events of one run, in emission order.
`warmup` records the warm-up child invocation (line 54); `setMessage`
records the progress-bar message update carrying the arguments of
percent_of_error_found (current error counter and total runs, line 90);
`livePrint` records a pb.println of decoded bytes (lines 98-99);
`liveSep` the live separator println (line 100); `finishBar` pb.finish
(line 113); `nothingFound` the success acknowledgment (line 126);
`summaryPercent` the end-of-run percentage line carrying the arguments
of percent_of_error_found (line 128); `sumStdout` / `sumStderr` the raw
byte writes of a recorded failure (lines 135-136); `sumSep` the summary
separator (line 138). -/
inductive Event where
  | warmup (res : Output)
  | setMessage (nbErrors : Nat) (runs : Nat)
  | livePrint (bytes : List Nat)
  | liveSep
  | finishBar
  | nothingFound
  | summaryPercent (nbErrors : Nat) (runs : Nat)
  | sumStdout (bytes : List Nat)
  | sumStderr (bytes : List Nat)
  | sumSep
deriving DecidableEq, Repr

/-- Errors that propagate out of FlakyFinder::run in the model:
`utf8Error` is the Utf8Error propagated by the question-mark operator on
from_utf8 (lines 98-99); `warmupPanic` is the panic of
.expect("Fail to warming up.") when the warm-up child cannot be
launched (line 58). -/
inductive RunError where
  | utf8Error
  | warmupPanic
deriving DecidableEq, Repr

/-- State of the aggregation loop when it finishes: the final
error_counter, the accumulated failing outputs in arrival order (the
`outputs` vector), the events emitted during the loop, and how many
results were consumed from the channel. -/
structure LoopResult where
  error_counter : Nat
  outputs : List Output
  events : List Event
  consumed : Nat
deriving DecidableEq, Repr

/-- The aggregation loop of FlakyFinder::run (lines 81-108), as a
function of the arrival-ordered list of results still to be received.
A successful result only advances the progress bar.  A failing result
increments error_counter and then: in stop mode (should_continue =
false) the loop breaks immediately, before the push, so the result is
not recorded; otherwise the progress message is updated, and when
show_errors_as_summary is false the stdout and stderr are decoded with
from_utf8 (propagating a Utf8Error) and printed live followed by a
separator; finally the result is pushed onto outputs. -/
def aggregate (ff : FlakyFinder) : Nat → List Output → Except RunError LoopResult
  | ec, [] => .ok { error_counter := ec, outputs := [], events := [], consumed := 0 }
  | ec, r :: rest =>
    if r.success then
      match aggregate ff ec rest with
      | .error e => .error e
      | .ok lr => .ok { lr with consumed := lr.consumed + 1 }
    else if ff.should_continue = false then
      .ok { error_counter := ec + 1, outputs := [], events := [], consumed := 1 }
    else if ff.show_errors_as_summary = false then
      if isValidUtf8 r.stdout = false then .error .utf8Error
      else if isValidUtf8 r.stderr = false then .error .utf8Error
      else
        match aggregate ff (ec + 1) rest with
        | .error e => .error e
        | .ok lr =>
          .ok { error_counter := lr.error_counter
                outputs := r :: lr.outputs
                events := Event.setMessage (ec + 1) ff.runs :: Event.livePrint r.stdout ::
                  Event.livePrint r.stderr :: Event.liveSep :: lr.events
                consumed := lr.consumed + 1 }
    else
      match aggregate ff (ec + 1) rest with
      | .error e => .error e
      | .ok lr =>
        .ok { error_counter := lr.error_counter
              outputs := r :: lr.outputs
              events := Event.setMessage (ec + 1) ff.runs :: lr.events
              consumed := lr.consumed + 1 }

/-- The events printed by FlakyFinder::show_errors (lines 124-142):
the success acknowledgment when outputs is empty, otherwise the
percentage line; then for every recorded failure, in order, its raw
stdout, its raw stderr, and (only when more than one failure was
recorded) a separator. -/
def show_errors_events (ff : FlakyFinder) (outs : List Output) : List Event :=
  (if outs.isEmpty then [Event.nothingFound]
   else [Event.summaryPercent outs.length ff.runs]) ++
  (outs.map fun o =>
    [Event.sumStdout o.stdout, Event.sumStderr o.stderr] ++
      (if 1 < outs.length then [Event.sumSep] else [])).flatten

/-- Result of FlakyFinder::run on the Ok path: the returned boolean
(outputs.is_empty, line 120), the accumulated failing outputs, the full
event trace, and the number of results consumed from the channel. -/
structure RunResult where
  good : Bool
  outputs : List Output
  events : List Event
  consumed : Nat
deriving DecidableEq, Repr

/-- FlakyFinder::run (lines 36-121).  The warm-up invocation happens
first, synchronously, before the worker pool is created: a launch
failure panics (fatal), and otherwise its result is bound to `_` and
discarded.  Then the aggregation loop consumes the arrival-ordered
results; pb.finish is called when error_counter > 1; show_errors runs
only when show_errors_as_summary is set; the returned value is
outputs.is_empty. -/
def run (ff : FlakyFinder) (warmupRes : Except Unit Output) (results : List Output) :
    Except RunError RunResult :=
  match warmupRes with
  | .error _ => .error .warmupPanic
  | .ok w =>
    match aggregate ff 0 results with
    | .error e => .error e
    | .ok lr =>
      .ok { good := lr.outputs.isEmpty
            outputs := lr.outputs
            events := Event.warmup w ::
              (lr.events ++ (if 1 < lr.error_counter then [Event.finishBar] else []) ++
               (if ff.show_errors_as_summary then show_errors_events ff lr.outputs else []))
            consumed := lr.consumed }

/-- Outcome of fn main (lines 149-162): panic on runs < 1 (fatal
configuration error), panic when run returns Err (the .expect), the
Err("Flaky tests found") return when run yields false, or Ok(()). -/
inductive MainOutcome where
  | configPanic
  | runPanic
  | flakyFound
  | success
deriving DecidableEq, Repr

/-- Whether a main outcome makes the process exit non-zero: every
outcome except Ok(()) does (panics and Err returns from main both yield
a non-zero exit status). -/
def mainExitNonZero : MainOutcome → Bool
  | .success => false
  | _ => true

/-- fn main (lines 149-162): after building the configuration, rejects
runs < 1 with a panic before FlakyFinder::run is ever called (so no
child process, not even the warm-up, is spawned and the event trace is
empty); otherwise runs the engine and maps its boolean to the process
outcome. -/
def mainRun (ff : FlakyFinder) (warmupRes : Except Unit Output) (results : List Output) :
    MainOutcome × List Event :=
  if ff.runs < 1 then (.configPanic, [])
  else
    match run ff warmupRes results with
    | .error _ => (.runPanic, [])
    | .ok rr => (if rr.good then .success else .flakyFound, rr.events)

/-- Discriminator: is this event the warm-up invocation record. -/
def Event.isWarmup : Event → Bool
  | .warmup _ => true
  | _ => false

/-- Discriminator: events that the aggregation loop itself can emit
(progress message, live failure printing, live separator). -/
def Event.isLoopEvent : Event → Bool
  | .setMessage _ _ => true
  | .livePrint _ => true
  | .liveSep => true
  | _ => false

/-- Discriminator: events printed by the end-of-run reporter
show_errors (percentage line, success acknowledgment, summary bodies
and separators). -/
def Event.isEndReport : Event → Bool
  | .nothingFound => true
  | .summaryPercent _ _ => true
  | .sumStdout _ => true
  | .sumStderr _ => true
  | .sumSep => true
  | _ => false

/-- Discriminator: is this event the end-of-run percentage line. -/
def Event.isPercentLine : Event → Bool
  | .summaryPercent _ _ => true
  | _ => false

/-- Discriminator: is this event a live print of a failure body. -/
def Event.isLivePrint : Event → Bool
  | .livePrint _ => true
  | _ => false

/-- Concrete inputs for the evaluation of claim C1: stop-on-first-failure
configuration (should_continue = false), summary mode, three runs of an
always-failing command. -/
def c1cfg : FlakyFinder :=
  { cmd := "exit 1", nb_threads := 2, runs := 3, should_continue := false
    show_errors_as_summary := true }

/-- Warm-up result for the C1 evaluation (discarded by the engine). -/
def c1warm : Output := { success := true, stdout := [], stderr := [] }

/-- Arrival-ordered results for the C1 evaluation: every invocation fails. -/
def c1rs : List Output := List.replicate 3 { success := false, stdout := [], stderr := [] }

/-- Actual result of the C1 evaluation: no failure recorded, run reports
success, only the warm-up and the success acknowledgment are emitted. -/
def c1rr : RunResult :=
  { good := true, outputs := []
    events := [Event.warmup c1warm, Event.nothingFound]
    consumed := 1 }

/-- Concrete inputs for the C2 counterexample: live mode with
stop-on-first-failure set. -/
def c2stopCfg : FlakyFinder :=
  { cmd := "cmd", nb_threads := 1, runs := 2, should_continue := false
    show_errors_as_summary := false }

/-- Arrival-ordered results for the C2 counterexample: both invocations
fail, the first with captured output. -/
def c2stopRs : List Output :=
  [{ success := false, stdout := [65], stderr := [66] },
   { success := false, stdout := [], stderr := [] }]

/-- Concrete configuration for the C2 witness: live mode, continue mode. -/
def c2liveCfg : FlakyFinder :=
  { cmd := "cmd", nb_threads := 1, runs := 1, should_continue := true
    show_errors_as_summary := false }

/-- Warm-up result for the C2 witness. -/
def c2liveW : Output := { success := true, stdout := [], stderr := [] }

/-- Single failing result for the C2 witness. -/
def c2liveRs : List Output := [{ success := false, stdout := [65], stderr := [66] }]

/-- Actual run result for the C2 witness. -/
def c2liveRr : RunResult :=
  { good := false
    outputs := [{ success := false, stdout := [65], stderr := [66] }]
    events := [Event.warmup c2liveW, Event.setMessage 1 1, Event.livePrint [65],
      Event.livePrint [66], Event.liveSep]
    consumed := 1 }

/-- Concrete configuration for C3: live mode, continue mode. -/
def c3cfg : FlakyFinder :=
  { cmd := "cmd", nb_threads := 1, runs := 1, should_continue := true
    show_errors_as_summary := false }

/-- Warm-up result for C3. -/
def c3w : Output := { success := true, stdout := [], stderr := [] }

/-- Single failing result for C3. -/
def c3rs : List Output := [{ success := false, stdout := [65], stderr := [] }]

/-- Actual run result for C3. -/
def c3rr : RunResult :=
  { good := false
    outputs := [{ success := false, stdout := [65], stderr := [] }]
    events := [Event.warmup c3w, Event.setMessage 1 1, Event.livePrint [65],
      Event.livePrint [], Event.liveSep]
    consumed := 1 }

/-- Concrete configuration for the C4 witness: the spec scenario with
command "exit 1", totalRuns = 10, workerCount = 4, stopOnFirstFailure
false, live mode. -/
def c4cfg : FlakyFinder :=
  { cmd := "exit 1", nb_threads := 4, runs := 10, should_continue := true
    show_errors_as_summary := false }

/-- Warm-up result for the C4 witness. -/
def c4w : Output := { success := true, stdout := [], stderr := [] }

/-- Arrival-ordered results for the C4 witness: ten failing invocations
with empty captured output, as produced by the command "exit 1". -/
def c4rs : List Output := List.replicate 10 { success := false, stdout := [], stderr := [] }

/-- Concrete configuration for the C4 counterexample: one run of an
always-failing command, stopOnFirstFailure unset, live mode. -/
def c4badCfg : FlakyFinder :=
  { cmd := "badcmd", nb_threads := 1, runs := 1, should_continue := true
    show_errors_as_summary := false }

/-- Single arrival for the C4 counterexample: the invocation fails and
its captured stdout is not valid UTF-8. -/
def c4badRs : List Output := [{ success := false, stdout := [255], stderr := [] }]

/-- Concrete configuration for the C5 witness: runs = 0. -/
def c5cfg : FlakyFinder :=
  { cmd := "cmd", nb_threads := 4, runs := 0, should_continue := true
    show_errors_as_summary := false }

/-- Concrete configuration for C6: summary mode, continue mode. -/
def c6cfg : FlakyFinder :=
  { cmd := "cmd", nb_threads := 1, runs := 2, should_continue := true
    show_errors_as_summary := true }

/-- Warm-up result for C6. -/
def c6w : Output := { success := true, stdout := [], stderr := [] }

/-- Arrival-ordered results for C6: one failing invocation with captured
output, then one passing invocation. -/
def c6rs : List Output :=
  [{ success := false, stdout := [65], stderr := [66] },
   { success := true, stdout := [], stderr := [] }]

/-- Actual run result for C6: one recorded failure, reported in summary
mode as stdout then stderr with no separator. -/
def c6rr : RunResult :=
  { good := false
    outputs := [{ success := false, stdout := [65], stderr := [66] }]
    events := [Event.warmup c6w, Event.setMessage 1 2, Event.summaryPercent 1 2,
      Event.sumStdout [65], Event.sumStderr [66]]
    consumed := 2 }

/-- Concrete configuration for the C7 witness: summary mode, continue
mode, five configured runs. -/
def c7cfg : FlakyFinder :=
  { cmd := "cmd", nb_threads := 1, runs := 5, should_continue := true
    show_errors_as_summary := true }

/-- Arrival-ordered results for the C7 witness: three failing results. -/
def c7rs : List Output := List.replicate 3 { success := false, stdout := [], stderr := [] }

/-- Mid-loop aggregation state for the C7 witness after consuming the
first two results. -/
def c7lr : LoopResult :=
  { error_counter := 2
    outputs := List.replicate 2 { success := false, stdout := [], stderr := [] }
    events := [Event.setMessage 1 5, Event.setMessage 2 5]
    consumed := 2 }

/-- Concrete configuration for the C8 witness: summary mode, continue
mode, one run. -/
def c8cfg : FlakyFinder :=
  { cmd := "cmd", nb_threads := 1, runs := 1, should_continue := true
    show_errors_as_summary := true }

/-- Warm-up results for the C8 witness (two different ones, to
instantiate the discarded-result property). -/
def c8w : Output := { success := true, stdout := [7], stderr := [8] }

/-- Second warm-up result for the C8 witness. -/
def c8w2 : Output := { success := false, stdout := [9], stderr := [] }

/-- Single failing result for the C8 witness. -/
def c8rs : List Output := [{ success := false, stdout := [65], stderr := [66] }]

/-- Actual run result for the C8 witness with warm-up result c8w. -/
def c8rr : RunResult :=
  { good := false
    outputs := [{ success := false, stdout := [65], stderr := [66] }]
    events := [Event.warmup c8w, Event.setMessage 1 1, Event.summaryPercent 1 1,
      Event.sumStdout [65], Event.sumStderr [66]]
    consumed := 1 }

/-- Concrete configuration for C10: live mode, continue mode. -/
def c10cfg : FlakyFinder :=
  { cmd := "cmd", nb_threads := 1, runs := 1, should_continue := true
    show_errors_as_summary := false }

/-- Single failing result for C10 whose stdout is not valid UTF-8. -/
def c10rs : List Output := [{ success := false, stdout := [255], stderr := [] }]



theorem aggregate_cons_ok (ff : FlakyFinder) (ec : Nat) (r : Output) (rest : List Output)
    (lr : LoopResult) (h : aggregate ff ec (r :: rest) = Except.ok lr) :
    (r.success = true ∧ ∃ lr2, aggregate ff ec rest = Except.ok lr2 ∧
      lr = { lr2 with consumed := lr2.consumed + 1 }) ∨
    (r.success = false ∧ ff.should_continue = false ∧
      lr = { error_counter := ec + 1, outputs := [], events := [], consumed := 1 }) ∨
    (r.success = false ∧ ff.should_continue = true ∧ ff.show_errors_as_summary = false ∧
      isValidUtf8 r.stdout = true ∧ isValidUtf8 r.stderr = true ∧
      ∃ lr2, aggregate ff (ec + 1) rest = Except.ok lr2 ∧
        lr = { error_counter := lr2.error_counter
               outputs := r :: lr2.outputs
               events := Event.setMessage (ec + 1) ff.runs :: Event.livePrint r.stdout ::
                 Event.livePrint r.stderr :: Event.liveSep :: lr2.events
               consumed := lr2.consumed + 1 }) ∨
    (r.success = false ∧ ff.should_continue = true ∧ ff.show_errors_as_summary = true ∧
      ∃ lr2, aggregate ff (ec + 1) rest = Except.ok lr2 ∧
        lr = { error_counter := lr2.error_counter
               outputs := r :: lr2.outputs
               events := Event.setMessage (ec + 1) ff.runs :: lr2.events
               consumed := lr2.consumed + 1 }) := by
  cases hs : r.success with
  | true =>
    left
    refine ⟨rfl, ?_⟩
    simp only [aggregate, hs, if_true] at h
    cases hagg : aggregate ff ec rest with
    | error e => rw [hagg] at h; cases h
    | ok lr2 => rw [hagg] at h; exact ⟨lr2, rfl, (Except.ok.inj h).symm⟩
  | false =>
    simp only [aggregate, hs, Bool.false_eq_true, if_false] at h
    cases hc : ff.should_continue with
    | false =>
      simp only [hc, if_true] at h
      exact Or.inr (Or.inl ⟨rfl, rfl, (Except.ok.inj h).symm⟩)
    | true =>
      simp only [hc, Bool.true_eq_false, if_false] at h
      cases hsum : ff.show_errors_as_summary with
      | false =>
        simp only [hsum, if_true] at h
        cases hv1 : isValidUtf8 r.stdout with
        | false => rw [hv1] at h; simp at h
        | true =>
          rw [hv1] at h
          simp only [Bool.true_eq_false, if_false] at h
          cases hv2 : isValidUtf8 r.stderr with
          | false => rw [hv2] at h; simp at h
          | true =>
            rw [hv2] at h
            simp only [Bool.true_eq_false, if_false] at h
            cases hagg : aggregate ff (ec + 1) rest with
            | error e => rw [hagg] at h; cases h
            | ok lr2 =>
              rw [hagg] at h
              exact Or.inr (Or.inr (Or.inl ⟨rfl, rfl, rfl, rfl, rfl, lr2, rfl,
                (Except.ok.inj h).symm⟩))
      | true =>
        simp only [hsum, Bool.true_eq_false, if_false] at h
        cases hagg : aggregate ff (ec + 1) rest with
        | error e => rw [hagg] at h; cases h
        | ok lr2 =>
          rw [hagg] at h
          exact Or.inr (Or.inr (Or.inr ⟨rfl, rfl, rfl, lr2, rfl,
            (Except.ok.inj h).symm⟩))



theorem aggregate_outputs_sublist (ff : FlakyFinder) :
    ∀ (rs : List Output) (ec : Nat) (lr : LoopResult),
      aggregate ff ec rs = Except.ok lr → lr.outputs.Sublist rs := by
  intro rs
  induction rs with
  | nil =>
    intro ec lr h
    simp only [aggregate] at h
    rw [← Except.ok.inj h]
  | cons r rest ih =>
    intro ec lr h
    rcases aggregate_cons_ok ff ec r rest lr h with
      ⟨_, lr2, hagg, rfl⟩ | ⟨_, _, rfl⟩ | ⟨_, _, _, _, _, lr2, hagg, rfl⟩ |
      ⟨_, _, _, lr2, hagg, rfl⟩
    · exact (ih ec lr2 hagg).cons r
    · exact List.nil_sublist _
    · exact (ih (ec + 1) lr2 hagg).cons₂ r
    · exact (ih (ec + 1) lr2 hagg).cons₂ r

theorem aggregate_counts (ff : FlakyFinder) :
    ∀ (rs : List Output) (ec : Nat) (lr : LoopResult),
      aggregate ff ec rs = Except.ok lr →
      lr.outputs.length ≤ lr.consumed ∧ lr.consumed ≤ rs.length := by
  intro rs
  induction rs with
  | nil =>
    intro ec lr h
    simp only [aggregate] at h
    rw [← Except.ok.inj h]
    exact ⟨Nat.le_refl 0, Nat.le_refl 0⟩
  | cons r rest ih =>
    intro ec lr h
    rcases aggregate_cons_ok ff ec r rest lr h with
      ⟨_, lr2, hagg, rfl⟩ | ⟨_, _, rfl⟩ | ⟨_, _, _, _, _, lr2, hagg, rfl⟩ |
      ⟨_, _, _, lr2, hagg, rfl⟩
    · exact ⟨Nat.le_succ_of_le (ih ec lr2 hagg).1,
        Nat.succ_le_succ (ih ec lr2 hagg).2⟩
    · exact ⟨Nat.zero_le 1, Nat.succ_le_succ (Nat.zero_le _)⟩
    · exact ⟨Nat.succ_le_succ (ih (ec + 1) lr2 hagg).1,
        Nat.succ_le_succ (ih (ec + 1) lr2 hagg).2⟩
    · exact ⟨Nat.succ_le_succ (ih (ec + 1) lr2 hagg).1,
        Nat.succ_le_succ (ih (ec + 1) lr2 hagg).2⟩

theorem aggregate_events_loop (ff : FlakyFinder) :
    ∀ (rs : List Output) (ec : Nat) (lr : LoopResult),
      aggregate ff ec rs = Except.ok lr →
      ∀ e ∈ lr.events, Event.isLoopEvent e = true := by
  intro rs
  induction rs with
  | nil =>
    intro ec lr h e he
    simp only [aggregate] at h
    rw [← Except.ok.inj h] at he
    simp at he
  | cons r rest ih =>
    intro ec lr h e he
    rcases aggregate_cons_ok ff ec r rest lr h with
      ⟨_, lr2, hagg, rfl⟩ | ⟨_, _, rfl⟩ | ⟨_, _, _, _, _, lr2, hagg, rfl⟩ |
      ⟨_, _, _, lr2, hagg, rfl⟩
    · exact ih ec lr2 hagg e he
    · simp at he
    · simp only [List.mem_cons] at he
      rcases he with rfl | rfl | rfl | rfl | he
      · rfl
      · rfl
      · rfl
      · rfl
      · exact ih (ec + 1) lr2 hagg e he
    · simp only [List.mem_cons] at he
      rcases he with rfl | he
      · rfl
      · exact ih (ec + 1) lr2 hagg e he

theorem aggregate_filter (ff : FlakyFinder) (hc : ff.should_continue = true) :
    ∀ (rs : List Output) (ec : Nat) (lr : LoopResult),
      aggregate ff ec rs = Except.ok lr →
      lr.outputs = rs.filter fun r => !r.success := by
  intro rs
  induction rs with
  | nil =>
    intro ec lr h
    rw [← Except.ok.inj h]
    rfl
  | cons r rest ih =>
    intro ec lr h
    rcases aggregate_cons_ok ff ec r rest lr h with
      ⟨hs, lr2, hagg, rfl⟩ | ⟨_, hcf, rfl⟩ | ⟨hs, _, _, _, _, lr2, hagg, rfl⟩ |
      ⟨hs, _, _, lr2, hagg, rfl⟩
    · simp only [List.filter_cons, hs, Bool.not_true, ih ec lr2 hagg]
      rfl
    · rw [hcf] at hc; cases hc
    · simp only [List.filter_cons, hs, Bool.not_false, ih (ec + 1) lr2 hagg]
      rfl
    · simp only [List.filter_cons, hs, Bool.not_false, ih (ec + 1) lr2 hagg]
      rfl

theorem aggregate_livePrints (ff : FlakyFinder) (hc : ff.should_continue = true)
    (hl : ff.show_errors_as_summary = false) :
    ∀ (rs : List Output) (ec : Nat) (lr : LoopResult),
      aggregate ff ec rs = Except.ok lr →
      ∀ r ∈ rs, r.success = false →
        Event.livePrint r.stdout ∈ lr.events ∧ Event.livePrint r.stderr ∈ lr.events := by
  intro rs
  induction rs with
  | nil =>
    intro ec lr h r hr
    simp at hr
  | cons x rest ih =>
    intro ec lr h r hr hrf
    rcases aggregate_cons_ok ff ec x rest lr h with
      ⟨hs, lr2, hagg, rfl⟩ | ⟨_, hcf, rfl⟩ | ⟨hs, _, _, _, _, lr2, hagg, rfl⟩ |
      ⟨_, _, hsum, lr2, hagg, rfl⟩
    · rcases List.mem_cons.mp hr with rfl | hr2
      · rw [hrf] at hs; cases hs
      · exact ih ec lr2 hagg r hr2 hrf
    · rw [hcf] at hc; cases hc
    · rcases List.mem_cons.mp hr with rfl | hr2
      · exact ⟨by simp, by simp⟩
      · have := ih (ec + 1) lr2 hagg r hr2 hrf
        exact ⟨by simp [this.1], by simp [this.2]⟩
    · rw [hsum] at hl; cases hl

theorem aggregate_all_fail (ff : FlakyFinder) (hc : ff.should_continue = true) :
    ∀ (rs : List Output) (ec : Nat),
      (∀ r ∈ rs, r.success = false) →
      (ff.show_errors_as_summary = true ∨
        ∀ r ∈ rs, isValidUtf8 r.stdout = true ∧ isValidUtf8 r.stderr = true) →
      ∃ lr, aggregate ff ec rs = Except.ok lr ∧ lr.outputs = rs ∧
        lr.consumed = rs.length := by
  intro rs
  induction rs with
  | nil =>
    intro ec _ _
    exact ⟨_, rfl, rfl, rfl⟩
  | cons r rest ih =>
    intro ec hf hv
    have hr : r.success = false := hf r (List.mem_cons_self r rest)
    have hvrest : ff.show_errors_as_summary = true ∨
        ∀ x ∈ rest, isValidUtf8 x.stdout = true ∧ isValidUtf8 x.stderr = true := by
      rcases hv with h | h
      · exact Or.inl h
      · exact Or.inr fun x hx => h x (List.mem_cons_of_mem r hx)
    obtain ⟨lr, hlr, ho, hcn⟩ := ih (ec + 1) (fun x hx => hf x (List.mem_cons_of_mem r hx)) hvrest
    cases hsum : ff.show_errors_as_summary with
    | true =>
      have hstep : aggregate ff ec (r :: rest) = Except.ok
          { error_counter := lr.error_counter, outputs := r :: lr.outputs,
            events := Event.setMessage (ec + 1) ff.runs :: lr.events,
            consumed := lr.consumed + 1 } := by
        simp only [aggregate, hr, Bool.false_eq_true, if_false, hc, Bool.true_eq_false,
          hsum, hlr]
      exact ⟨_, hstep, by simp [ho], by simp [hcn]⟩
    | false =>
      rcases hv with h | h
      · rw [h] at hsum; cases hsum
      · have hv1 : isValidUtf8 r.stdout = true := (h r (List.mem_cons_self r rest)).1
        have hv2 : isValidUtf8 r.stderr = true := (h r (List.mem_cons_self r rest)).2
        have hstep : aggregate ff ec (r :: rest) = Except.ok
            { error_counter := lr.error_counter, outputs := r :: lr.outputs,
              events := Event.setMessage (ec + 1) ff.runs :: Event.livePrint r.stdout ::
                Event.livePrint r.stderr :: Event.liveSep :: lr.events,
              consumed := lr.consumed + 1 } := by
          simp only [aggregate, hr, Bool.false_eq_true, if_false, if_true, hc,
            Bool.true_eq_false, hsum, hv1, hv2, hlr]
        exact ⟨_, hstep, by simp [ho], by simp [hcn]⟩


/-- Inversion of a successful FlakyFinder::run: it decomposes into a
successful aggregation loop followed by the optional pb.finish and the
optional end-of-run reporter, with the warm-up event at the head of the
trace. -/
theorem run_ok_inv (ff : FlakyFinder) (w : Output) (rs : List Output) (rr : RunResult)
    (h : run ff (Except.ok w) rs = Except.ok rr) :
    ∃ lr, aggregate ff 0 rs = Except.ok lr ∧
      rr.good = lr.outputs.isEmpty ∧ rr.outputs = lr.outputs ∧ rr.consumed = lr.consumed ∧
      rr.events = Event.warmup w ::
        (lr.events ++ (if 1 < lr.error_counter then [Event.finishBar] else []) ++
         (if ff.show_errors_as_summary then show_errors_events ff lr.outputs else [])) := by
  simp only [run] at h
  cases hagg : aggregate ff 0 rs with
  | error e => rw [hagg] at h; cases h
  | ok lr =>
    rw [hagg] at h
    refine ⟨lr, rfl, ?_⟩
    rw [← Except.ok.inj h]
    exact ⟨rfl, rfl, rfl, rfl⟩

/-- Loop events are never the warm-up record. -/
theorem loopEvent_not_warmup (e : Event) (h : Event.isLoopEvent e = true) :
    Event.isWarmup e = false := by
  cases e <;> simp_all [Event.isLoopEvent, Event.isWarmup]

/-- Loop events are never end-of-run reporter events. -/
theorem loopEvent_not_endReport (e : Event) (h : Event.isLoopEvent e = true) :
    Event.isEndReport e = false := by
  cases e <;> simp_all [Event.isLoopEvent, Event.isEndReport]

/-- The end-of-run reporter never emits a warm-up record. -/
theorem show_errors_events_not_warmup (ff : FlakyFinder) (outs : List Output) :
    ∀ e ∈ show_errors_events ff outs, Event.isWarmup e = false := by
  intro e he
  simp only [show_errors_events, List.mem_append] at he
  rcases he with he | he
  · split at he <;> simp_all [Event.isWarmup]
  · simp only [List.mem_flatten, List.mem_map] at he
    obtain ⟨l, ⟨o, ho, rfl⟩, hel⟩ := he
    simp only [List.mem_append, List.mem_cons] at hel
    rcases hel with (rfl | rfl | hfalse) | hel
    · rfl
    · rfl
    · simp at hfalse
    · split at hel <;> simp_all [Event.isWarmup]


/-- C1: evaluation of the engine at the failing input for the
stop-on-first-failure policy.  With should_continue = false and a command
that always fails, the loop breaks out before pushing the triggering
failure, so at finalize time the failures sequence is empty (not of length
1 as claimed), the loop stopped consuming after one of three results, run
returns true and the process exits zero reporting success. -/
theorem C1_stop_mode_drops_the_failure :
    run c1cfg (Except.ok c1warm) c1rs = Except.ok c1rr ∧
    c1rr.outputs.length = 0 ∧ c1rr.consumed = 1 ∧
    (mainRun c1cfg (Except.ok c1warm) c1rs).fst = MainOutcome.success ∧
    mainExitNonZero MainOutcome.success = false :=
  ⟨rfl, rfl, rfl, rfl, rfl⟩

/-- C2 (counterexample): with summaryOnly unset but stopOnFirstFailure
set, a failing result is received (consumed = 1 and the first arrival
fails) yet no live print of its stdout or stderr is ever emitted,
refuting the claim for that stop policy. -/
theorem C2_cex_stop_mode_failure_not_emitted :
    (run c2stopCfg (Except.ok c2liveW) c2stopRs).map
      (fun rr => (rr.consumed, rr.outputs.length, rr.events.countP Event.isLivePrint)) =
    Except.ok (1, 0, 0) := rfl

/-- C2 (amended): when summaryOnly is not set and the engine is
configured to continue after failures, every received failing result has
its captured stdout and stderr emitted to the live output stream
(provided the run completes without aborting on a UTF-8 decode error, in
which case run returns an error instead). -/
theorem C2_live_failures_emitted (ff : FlakyFinder) (w : Output) (rs : List Output)
    (rr : RunResult) (hc : ff.should_continue = true)
    (hl : ff.show_errors_as_summary = false)
    (hrun : run ff (Except.ok w) rs = Except.ok rr) :
    ∀ r ∈ rs, r.success = false →
      Event.livePrint r.stdout ∈ rr.events ∧ Event.livePrint r.stderr ∈ rr.events := by
  obtain ⟨lr, hagg, _, _, _, hev⟩ := run_ok_inv ff w rs rr hrun
  intro r hr hrf
  have hm := aggregate_livePrints ff hc hl rs 0 lr hagg r hr hrf
  rw [hev]
  constructor
  · exact List.mem_cons_of_mem _ (List.mem_append_left _ (List.mem_append_left _ hm.1))
  · exact List.mem_cons_of_mem _ (List.mem_append_left _ (List.mem_append_left _ hm.2))

/-- C2 witness: in a concrete live-mode continue-mode run, both captured
streams of the single failing result appear in the emitted trace. -/
theorem C2_live_failures_emitted_witness :
    Event.livePrint [65] ∈ c2liveRr.events ∧ Event.livePrint [66] ∈ c2liveRr.events :=
  C2_live_failures_emitted c2liveCfg c2liveW c2liveRs c2liveRr rfl rfl rfl
    { success := false, stdout := [65], stderr := [66] } (List.mem_singleton.mpr rfl) rfl

/-- C3 (counterexample): in live mode (summaryOnly unset) with one
recorded failure, the run emits no percentage line and no end-of-run
reporter output at all, refuting the claim that the reporter still
prints the overall percentage line. -/
theorem C3_cex_live_mode_no_percent_line :
    (run c3cfg (Except.ok c3w) c3rs).map
      (fun rr => (rr.outputs.length, rr.events.countP Event.isPercentLine,
        rr.events.countP Event.isEndReport)) =
    Except.ok (1, 0, 0) := rfl

/-- C3 (amended): when summaryOnly is not set the end-of-run reporter is
not invoked at all: the emitted trace contains no reporter event,
neither the percentage line nor any failure body or separator printed
again. -/
theorem C3_live_mode_reporter_silent (ff : FlakyFinder) (w : Output)
    (rs : List Output) (rr : RunResult) (hl : ff.show_errors_as_summary = false)
    (hrun : run ff (Except.ok w) rs = Except.ok rr) :
    ∀ e ∈ rr.events, Event.isEndReport e = false := by
  obtain ⟨lr, hagg, _, _, _, hev⟩ := run_ok_inv ff w rs rr hrun
  intro e he
  rw [hev] at he
  rcases List.mem_cons.mp he with rfl | he
  · rfl
  rcases List.mem_append.mp he with he | he
  · rcases List.mem_append.mp he with he | he
    · exact loopEvent_not_endReport e (aggregate_events_loop ff rs 0 lr hagg e he)
    · split at he
      · rw [List.mem_singleton.mp he]; rfl
      · simp at he
  · rw [hl] at he
    simp at he

/-- C3 witness: the theorem applied to the concrete live-mode run of C3,
at the live print event of the failing stdout occurring in its trace. -/
theorem C3_live_mode_reporter_silent_witness :
    Event.isEndReport (Event.livePrint [65]) = false :=
  C3_live_mode_reporter_silent c3cfg c3w c3rs c3rr rfl rfl
    (Event.livePrint [65]) (by simp [c3rr])



/-- C4 (amended): for every positive number of runs, an always-failing command with
stopOnFirstFailure unset records every failing result: the failures
sequence has length totalRuns, the overall success value is false, and
main exits non-zero with the Flaky-tests-found outcome (the UTF-8
side condition only matters in live mode, where a failing body is decoded
before being recorded; the claim scenario "exit 1" has empty output). -/
theorem C4_always_failing_records_all (ff : FlakyFinder) (w : Output)
    (rs : List Output) (hruns : ff.runs = rs.length) (hpos : 0 < ff.runs)
    (hc : ff.should_continue = true)
    (hf : ∀ r ∈ rs, r.success = false)
    (hv : ff.show_errors_as_summary = true ∨
      ∀ r ∈ rs, isValidUtf8 r.stdout = true ∧ isValidUtf8 r.stderr = true) :
    ∃ rr, run ff (Except.ok w) rs = Except.ok rr ∧
      rr.outputs.length = ff.runs ∧ rr.good = false ∧
      (mainRun ff (Except.ok w) rs).fst = MainOutcome.flakyFound ∧
      mainExitNonZero (mainRun ff (Except.ok w) rs).fst = true := by
  obtain ⟨lr, hagg, ho, hcn⟩ := aggregate_all_fail ff hc rs 0 hf hv
  have hrunv : run ff (Except.ok w) rs = Except.ok
      { good := lr.outputs.isEmpty
        outputs := lr.outputs
        events := Event.warmup w ::
          (lr.events ++ (if 1 < lr.error_counter then [Event.finishBar] else []) ++
           (if ff.show_errors_as_summary then show_errors_events ff lr.outputs else []))
        consumed := lr.consumed } := by
    simp only [run, hagg]
  have hne : rs ≠ [] := by
    intro h0
    rw [h0] at hruns
    simp at hruns
    omega
  have hgood : lr.outputs.isEmpty = false := by
    rw [ho]
    cases rs with
    | nil => exact absurd rfl hne
    | cons a l => rfl
  have hfst : (mainRun ff (Except.ok w) rs).fst = MainOutcome.flakyFound := by
    simp only [mainRun]
    rw [if_neg (show ¬ ff.runs < 1 by omega), hrunv]
    simp [hgood]
  refine ⟨_, hrunv, ?_, ?_, hfst, ?_⟩
  · simp [ho, hruns]
  · simp [hgood]
  · rw [hfst]
    rfl

/-- C4 (counterexample): an always-failing command whose captured stdout
is not valid UTF-8, with stopOnFirstFailure unset and summaryOnly unset,
makes run abort with a decode error before recording the failure, so
failures.length is not totalRuns and the overall success value is never
produced (main panics on the Err, which still exits non-zero). -/
theorem C4_cex_invalid_utf8_breaks_totality :
    run c4badCfg (Except.ok { success := true, stdout := [], stderr := [] }) c4badRs =
      Except.error RunError.utf8Error ∧
    (mainRun c4badCfg (Except.ok { success := true, stdout := [], stderr := [] })
      c4badRs).fst = MainOutcome.runPanic ∧
    mainExitNonZero MainOutcome.runPanic = true := ⟨rfl, rfl, rfl⟩

/-- C4 witness: the spec scenario, command "exit 1", totalRuns = 10,
workerCount = 4, stopOnFirstFailure unset: all ten failures are
recorded and the process outcome is the non-zero Flaky-tests-found. -/
theorem C4_always_failing_records_all_witness :
    (run c4cfg (Except.ok c4w) c4rs).map (fun rr => rr.outputs.length) = Except.ok 10 ∧
    (mainRun c4cfg (Except.ok c4w) c4rs).fst = MainOutcome.flakyFound ∧
    mainExitNonZero (mainRun c4cfg (Except.ok c4w) c4rs).fst = true := by
  obtain ⟨rr, h1, h2, h3, h4, h5⟩ :=
    C4_always_failing_records_all c4cfg c4w c4rs (by decide) (by decide) rfl
      (by decide) (Or.inr (by decide))
  refine ⟨?_, h4, h5⟩
  rw [h1]
  simp [Except.map, h2, c4cfg]

/-- C5: a configuration with totalRuns = 0 is rejected by main with a
fatal configuration panic before FlakyFinder::run is ever invoked: the
process exits non-zero and the event trace is empty, so no child
process (not even the warm-up) is spawned. -/
theorem C5_zero_runs_rejected (ff : FlakyFinder) (w : Except Unit Output)
    (rs : List Output) (h : ff.runs = 0) :
    mainRun ff w rs = (MainOutcome.configPanic, []) ∧
    mainExitNonZero (mainRun ff w rs).fst = true := by
  have hmain : mainRun ff w rs = (MainOutcome.configPanic, []) := by
    simp [mainRun, h]
  exact ⟨hmain, by rw [hmain]; rfl⟩

/-- C5 witness: a concrete zero-run configuration is rejected with the
configuration panic and an empty trace. -/
theorem C5_zero_runs_rejected_witness :
    mainRun c5cfg (Except.ok { success := true, stdout := [], stderr := [] }) [] =
      (MainOutcome.configPanic, []) :=
  (C5_zero_runs_rejected c5cfg (Except.ok { success := true, stdout := [], stderr := [] })
    [] rfl).1



/-- C6 (counterexample): in summary mode with exactly one recorded
failure, the reporter prints no visual separator at all (the source only
prints one after the bodies and only when more than one failure was
recorded), refuting the claimed separator-then-stdout-then-stderr shape
for every entry. -/
theorem C6_cex_single_failure_no_separator :
    run c6cfg (Except.ok c6w) c6rs = Except.ok c6rr ∧
    c6rr.outputs.length = 1 ∧
    c6rr.events.countP (fun e => decide (e = Event.sumSep)) = 0 ∧
    Event.sumSep ∉ c6rr.events := by
  refine ⟨rfl, rfl, rfl, ?_⟩
  decide

/-- C6 (amended): when summaryOnly was set, the reporter prints the
percentage line before the list when failures is non-empty and the
success acknowledgment instead when it is empty, and then, for every
recorded failure in arrival order (the failures are exactly the failing
results in arrival order when the engine continues on failures), its raw
stdout, then its raw stderr, then a visual separator only when more than
one failure was recorded; nothing from the reporter precedes this
section. -/
theorem C6_summary_report_format (ff : FlakyFinder) (w : Output) (rs : List Output)
    (rr : RunResult) (hsum : ff.show_errors_as_summary = true)
    (hc : ff.should_continue = true)
    (hrun : run ff (Except.ok w) rs = Except.ok rr) :
    rr.outputs = rs.filter (fun r => !r.success) ∧
    ∃ pre, (∀ e ∈ pre, Event.isEndReport e = false) ∧
      rr.events = Event.warmup w :: pre ++
        ((if rr.outputs.isEmpty then [Event.nothingFound]
          else [Event.summaryPercent rr.outputs.length ff.runs]) ++
         (rr.outputs.map fun o =>
           [Event.sumStdout o.stdout, Event.sumStderr o.stderr] ++
             (if 1 < rr.outputs.length then [Event.sumSep] else [])).flatten) := by
  obtain ⟨lr, hagg, hg, hout, hcons, hev⟩ := run_ok_inv ff w rs rr hrun
  refine ⟨hout.trans (aggregate_filter ff hc rs 0 lr hagg), ?_⟩
  refine ⟨lr.events ++ (if 1 < lr.error_counter then [Event.finishBar] else []), ?_, ?_⟩
  · intro e he
    rcases List.mem_append.mp he with he | he
    · exact loopEvent_not_endReport e (aggregate_events_loop ff rs 0 lr hagg e he)
    · split at he
      · rw [List.mem_singleton.mp he]
        rfl
      · simp at he
  · rw [hev, hsum, hout]
    simp [show_errors_events, List.append_assoc]

/-- C6 witness: the concrete summary-mode run of C6 records exactly the
failing result of its two arrivals. -/
theorem C6_summary_report_format_witness :
    c6rr.outputs = [{ success := false, stdout := [65], stderr := [66] }] :=
  ((C6_summary_report_format c6cfg c6w c6rs c6rr rfl rfl rfl).1).trans rfl

/-- C7: the number of recorded failures never exceeds the configured
number of runs, both at every intermediate point of the aggregation loop
(after consuming any prefix of the at-most-totalRuns results the channel
carries) and at finalize time. -/
theorem C7_failures_le_runs (ff : FlakyFinder) (w : Output) (rs : List Output)
    (hlen : rs.length ≤ ff.runs) :
    (∀ (k : Nat) (lr : LoopResult), aggregate ff 0 (rs.take k) = Except.ok lr →
      lr.outputs.length ≤ ff.runs) ∧
    (∀ rr : RunResult, run ff (Except.ok w) rs = Except.ok rr →
      rr.outputs.length ≤ ff.runs) := by
  constructor
  · intro k lr h
    have h1 := aggregate_counts ff (rs.take k) 0 lr h
    have h2 : (rs.take k).length ≤ rs.length := (List.take_sublist k rs).length_le
    omega
  · intro rr h
    obtain ⟨lr, hagg, _, hout, _, _⟩ := run_ok_inv ff w rs rr h
    have h1 := aggregate_counts ff rs 0 lr hagg
    rw [hout]
    omega

/-- C7 witness: in a concrete five-run configuration, after consuming
the first two of three failing arrivals the recorded failures number at
most five, and so do the finalize-time failures. -/
theorem C7_failures_le_runs_witness :
    c7lr.outputs.length ≤ 5 :=
  (C7_failures_le_runs c7cfg { success := true, stdout := [], stderr := [] } c7rs
    (by decide)).1 2 c7lr rfl

/-- C8: the warm-up invocation is fatal exactly when the child cannot be
launched; a launched warm-up result, pass or fail, is discarded: it does
not influence the returned value, the recorded failures or the consumed
count, the trace starts with exactly one warm-up record, and the
recorded failures are a subsequence of the channel results only. -/
theorem C8_warmup_once_discarded (ff : FlakyFinder) (rs : List Output) (w w2 : Output) :
    run ff (Except.error ()) rs = Except.error RunError.warmupPanic ∧
    ((run ff (Except.ok w) rs).map fun rr => (rr.good, rr.outputs, rr.consumed)) =
      ((run ff (Except.ok w2) rs).map fun rr => (rr.good, rr.outputs, rr.consumed)) ∧
    (∀ rr : RunResult, run ff (Except.ok w) rs = Except.ok rr →
      rr.events.head? = some (Event.warmup w) ∧
      rr.events.countP Event.isWarmup = 1 ∧
      rr.outputs.Sublist rs) := by
  refine ⟨rfl, ?_, ?_⟩
  · simp only [run]
    cases aggregate ff 0 rs <;> rfl
  · intro rr h
    obtain ⟨lr, hagg, _, hout, _, hev⟩ := run_ok_inv ff w rs rr h
    refine ⟨by rw [hev]; rfl, ?_,
      by rw [hout]; exact aggregate_outputs_sublist ff rs 0 lr hagg⟩
    rw [hev]
    simp only [List.countP_cons, List.countP_append]
    have hl : lr.events.countP Event.isWarmup = 0 := by
      rw [List.countP_eq_zero]
      intro e he
      have hwe := loopEvent_not_warmup e (aggregate_events_loop ff rs 0 lr hagg e he)
      simp [hwe]
    have hfin : (if 1 < lr.error_counter then [Event.finishBar] else []).countP
        Event.isWarmup = 0 := by
      split <;> rfl
    have hsum : (if ff.show_errors_as_summary then show_errors_events ff lr.outputs
        else []).countP Event.isWarmup = 0 := by
      split
      · rw [List.countP_eq_zero]
        intro e he
        simp [show_errors_events_not_warmup ff lr.outputs e he]
      · rfl
    rw [hl, hfin, hsum]
    rfl

/-- C8 witness: at a concrete configuration, a warm-up launch failure is
fatal, and with a launched warm-up the trace head is the single warm-up
record and the recorded failure comes from the channel results. -/
theorem C8_warmup_once_discarded_witness :
    run c8cfg (Except.error ()) c8rs = Except.error RunError.warmupPanic ∧
    c8rr.events.head? = some (Event.warmup c8w) ∧
    c8rr.events.countP Event.isWarmup = 1 ∧
    c8rr.outputs.Sublist c8rs := by
  have h := C8_warmup_once_discarded c8cfg c8rs c8w c8w2
  have h3 := h.2.2 c8rr rfl
  exact ⟨h.1, h3.1, h3.2.1, h3.2.2⟩

/-- C10: a failing invocation whose captured stdout is not valid UTF-8
makes run return an error in live continue mode: the whole run aborts
instead of recording the failure and continuing. -/
theorem C10_invalid_utf8_aborts_run :
    isValidUtf8 [255] = false ∧
    run c10cfg (Except.ok { success := true, stdout := [], stderr := [] }) c10rs =
      Except.error RunError.utf8Error := ⟨rfl, rfl⟩

end Flaky
